import Mathlib

/-!
Verification development for the AURELIUS analytics / auto-learning core
(`analytics.py`, `auto_learning.py`).

Shallow embedding conventions:
- Python `float` values are modelled as exact rationals (`ℚ`); the claims
  settled here only evaluate these at values where binary floating point
  is exact (0, small integers, integer percentages), so no rounding gap
  is relevant.
- Python dicts built by insertion (`defaultdict`, `Counter`) are modelled
  as insertion-ordered association lists.
- `datetime.fromisoformat` results are carried in records as
  `Option PyDateTime` (`none` = the field is missing or fails to parse,
  in which case the source skips the record); naive UTC datetimes only,
  matching the `datetime.utcnow()`-based windows the code compares against.
- The log store (redis) is modelled as a record of the lists/scalars the
  code reads and writes; store primitives are modelled as total.
-/

/-- `p` is a prefix of `l` (over characters). -/
def prefixOfChars : List Char → List Char → Bool
  | [], _ => true
  | _ :: _, [] => false
  | a :: as, b :: bs => a == b && prefixOfChars as bs

/-- `p` occurs contiguously inside `l` (over characters). -/
def infixOfChars (p : List Char) : List Char → Bool
  | [] => p.isEmpty
  | b :: bs => prefixOfChars p (b :: bs) || infixOfChars p bs

/-- Python `needle in haystack` on strings (substring containment). -/
def substr (needle haystack : String) : Bool :=
  infixOfChars needle.toList haystack.toList

/-- Stable insertion of `x` into a list sorted descending by `key`:
`x` goes after every element whose key is ≥ its own, matching the
position Python's stable `sorted(..., reverse=True)` gives it. -/
def insDesc (key : α → ℚ) (x : α) : List α → List α
  | [] => [x]
  | y :: ys => if key y < key x then x :: y :: ys else y :: insDesc key x ys

/-- Python `sorted(l, key=key, reverse=True)`: stable descending sort. -/
def sortDescBy (key : α → ℚ) (l : List α) : List α :=
  l.foldl (fun acc x => insDesc key x acc) []

/-- Ascending insertion sort on naturals (Python `sorted` on ints). -/
def insAscNat (x : Nat) : List Nat → List Nat
  | [] => [x]
  | y :: ys => if x < y then x :: y :: ys else y :: insAscNat x ys

/-- Python `sorted` on a list of ints. -/
def sortAscNat (l : List Nat) : List Nat :=
  l.foldl (fun acc x => insAscNat x acc) []

/-- `defaultdict(int)`-style increment on an insertion-ordered assoc list. -/
def tallyIncr (l : List (String × Nat)) (k : String) : List (String × Nat) :=
  if l.any (fun q => q.1 == k) then
    l.map (fun q => if q.1 == k then (q.1, q.2 + 1) else q)
  else l ++ [(k, 1)]

/-- `defaultdict(list)`-style append on an insertion-ordered assoc list. -/
def appendToKey [BEq κ] (l : List (κ × List α)) (k : κ) (v : α) :
    List (κ × List α) :=
  if l.any (fun q => q.1 == k) then
    l.map (fun q => if q.1 == k then (q.1, q.2 ++ [v]) else q)
  else l ++ [(k, [v])]

/-- Python `d[k]` presence test plus read: `k in d` → `some d[k]`. -/
def lookupKey (l : List (String × α)) (k : String) : Option α :=
  (l.find? (fun q => q.1 == k)).map (fun q => q.2)

/-- Python `", ".join(l)`. -/
def joinComma (l : List String) : String :=
  String.intercalate ", " l

/-- Mean of a list of rationals, as `sum(scores)/len(scores)`. -/
def listAvg (l : List ℚ) : ℚ :=
  l.sum / (l.length : ℚ)

/-!
## Datetime model

`datetime.utcnow()` values: naive proleptic-Gregorian timestamps.
Only the operations the source uses are provided: `replace`, adding and
subtracting whole days (`timedelta(days=n)` preserves the time fields),
`weekday()` (Monday = 0), and comparison.
-/

structure PyDateTime where
  year : Nat
  month : Nat
  day : Nat
  hour : Nat
  minute : Nat
  second : Nat
  microsecond : Nat
deriving DecidableEq, Repr

def isLeapYear (y : Nat) : Bool :=
  y % 4 == 0 && (y % 100 != 0 || y % 400 == 0)

def daysInMonth (y m : Nat) : Nat :=
  if m == 2 then (if isLeapYear y then 29 else 28)
  else if m == 4 || m == 6 || m == 9 || m == 11 then 30
  else 31

def daysBeforeMonth (y m : Nat) : Nat :=
  (List.range' 1 (m - 1)).foldl (fun acc mo => acc + daysInMonth y mo) 0

/-- Python `date.toordinal()`: day count with 0001-01-01 ↦ 1. -/
def PyDateTime.toOrdinal (d : PyDateTime) : Nat :=
  let n := d.year - 1
  365 * n + n / 4 + n / 400 - n / 100 + daysBeforeMonth d.year d.month + d.day

/-- Python `datetime.weekday()`: Monday = 0 … Sunday = 6. -/
def PyDateTime.weekday (d : PyDateTime) : Nat :=
  (d.toOrdinal + 6) % 7

/-- Python `datetime.strftime("%A")`. -/
def PyDateTime.dayName (d : PyDateTime) : String :=
  ["Monday", "Tuesday", "Wednesday", "Thursday", "Friday",
   "Saturday", "Sunday"].getD d.weekday ""

def PyDateTime.addOneDay (d : PyDateTime) : PyDateTime :=
  if d.day < daysInMonth d.year d.month then { d with day := d.day + 1 }
  else if d.month < 12 then { d with month := d.month + 1, day := 1 }
  else { d with year := d.year + 1, month := 1, day := 1 }

def PyDateTime.subOneDay (d : PyDateTime) : PyDateTime :=
  if d.day > 1 then { d with day := d.day - 1 }
  else if d.month > 1 then
    { d with month := d.month - 1, day := daysInMonth d.year (d.month - 1) }
  else { d with year := d.year - 1, month := 12, day := 31 }

/-- `d + timedelta(days := n)` (time-of-day fields unchanged). -/
def PyDateTime.addDays (d : PyDateTime) : Nat → PyDateTime
  | 0 => d
  | n + 1 => (d.addDays n).addOneDay

/-- `d - timedelta(days := n)` (time-of-day fields unchanged). -/
def PyDateTime.subDays (d : PyDateTime) : Nat → PyDateTime
  | 0 => d
  | n + 1 => (d.subDays n).subOneDay

/-- Injective key realising Python's lexicographic datetime comparison
(for field values in their calendar ranges). -/
def PyDateTime.toKey (d : PyDateTime) : Nat :=
  ((((((d.year * 13 + d.month) * 32 + d.day) * 24 + d.hour) * 60 +
      d.minute) * 60 + d.second)) * 1000000 + d.microsecond

def dtLE (a b : PyDateTime) : Bool := a.toKey ≤ b.toKey

def dtLT (a b : PyDateTime) : Bool := a.toKey < b.toKey

/-- `now.replace(hour=0, minute=0, second=0, microsecond=0)`. -/
def PyDateTime.atMidnight (d : PyDateTime) : PyDateTime :=
  { d with hour := 0, minute := 0, second := 0, microsecond := 0 }

/-!
## Period Windower — `Analytics._get_date_range`

The `now = datetime.utcnow()` read at the top of the Python function is
the explicit `now` parameter here.
-/

def getDateRange (period : String) (now : PyDateTime) :
    PyDateTime × PyDateTime :=
  if period = "daily" then
    let start_date := now.atMidnight
    (start_date, start_date.addDays 1)
  else if period = "weekly" then
    let days_since_monday := now.weekday
    let start_date := (now.subDays days_since_monday).atMidnight
    (start_date, start_date.addDays 7)
  else if period = "monthly" then
    let start_date := { now.atMidnight with day := 1 }
    if now.month = 12 then
      (start_date, { start_date with year := now.year + 1, month := 1 })
    else
      (start_date, { start_date with month := now.month + 1 })
  else
    -- Default to daily
    let start_date := now.atMidnight
    (start_date, start_date.addDays 1)

/-- C5: December monthly window rolls the end date over to January of the
next year, with the start at the first of that December at midnight. -/
theorem monthly_range_december_rollover (now : PyDateTime)
    (h : now.month = 12) :
    (getDateRange "monthly" now).1 =
      { year := now.year, month := 12, day := 1, hour := 0, minute := 0,
        second := 0, microsecond := 0 } ∧
    (getDateRange "monthly" now).2.year = now.year + 1 ∧
    (getDateRange "monthly" now).2.month = 1 := by
  cases now with
  | mk y mo d hh mm ss us =>
    simp only [PyDateTime.month] at h
    subst h
    refine ⟨?_, ?_, ?_⟩ <;>
      simp [getDateRange, PyDateTime.atMidnight]

/-- Witness for `monthly_range_december_rollover` at a concrete December
instant. -/
theorem monthly_range_december_rollover_witness :
    (getDateRange "monthly" ⟨2025, 12, 15, 10, 30, 5, 7⟩).1 =
      { year := 2025, month := 12, day := 1, hour := 0, minute := 0,
        second := 0, microsecond := 0 } ∧
    (getDateRange "monthly" ⟨2025, 12, 15, 10, 30, 5, 7⟩).2.year = 2025 + 1 ∧
    (getDateRange "monthly" ⟨2025, 12, 15, 10, 30, 5, 7⟩).2.month = 1 :=
  monthly_range_december_rollover ⟨2025, 12, 15, 10, 30, 5, 7⟩ rfl

/-- C6: an unrecognised period name falls back to exactly the daily
window, with no error. -/
theorem unknown_period_same_as_daily (period : String) (now : PyDateTime)
    (h1 : period ≠ "daily") (h2 : period ≠ "weekly")
    (h3 : period ≠ "monthly") :
    getDateRange period now = getDateRange "daily" now := by
  rw [getDateRange, if_neg h1, if_neg h2, if_neg h3, getDateRange,
    if_pos rfl]

/-- Witness for `unknown_period_same_as_daily` at the period string
"hourly". -/
theorem unknown_period_same_as_daily_witness :
    getDateRange "hourly" ⟨2026, 10, 12, 3, 4, 5, 6⟩ =
      getDateRange "daily" ⟨2026, 10, 12, 3, 4, 5, 6⟩ :=
  unknown_period_same_as_daily "hourly" ⟨2026, 10, 12, 3, 4, 5, 6⟩
    (by decide) (by decide) (by decide)

/-!
## Engagement reducer — `Analytics._get_engagement_metrics`

Its input is the list already produced by `_get_interactions_in_period`:
records whose timestamps parsed and fell in the window and whose `data`
payload decoded. Of each record the reducer reads only the `type` tag and
`data.get("content", "")`, which is what `Interaction` carries.
-/

structure Interaction where
  type : String
  content : String
deriving DecidableEq, Repr

structure EngagementMetrics where
  total_interactions : Nat
  posts_created : Nat
  replies_sent : Nat
  mentions_received : Nat
  likes_given : Nat
  shares_made : Nat
  engagement_rate : ℚ
  response_time_avg : ℚ
  top_performing_content : List (String × Nat)
deriving DecidableEq, Repr

/-- Truncated 50-character content key used for `content_performance`. -/
def contentKey (content : String) : String :=
  if content.length > 50 then content.take 50 ++ "..." else content

structure EngCounters where
  posts : Nat
  replies : Nat
  mentions : Nat
  likes : Nat
  shares : Nat
  perf : List (String × Nat)
deriving Repr

def engStep (c : EngCounters) (it : Interaction) : EngCounters :=
  let c :=
    if substr "post" it.type || substr "tweet" it.type ||
        substr "status" it.type then
      { c with posts := c.posts + 1 }
    else if substr "reply" it.type then
      { c with replies := c.replies + 1 }
    else if substr "mention" it.type then
      { c with mentions := c.mentions + 1 }
    else if substr "like" it.type || substr "favourite" it.type then
      { c with likes := c.likes + 1 }
    else if substr "boost" it.type || substr "retweet" it.type then
      { c with shares := c.shares + 1 }
    else c
  if it.content ≠ "" then
    { c with perf := tallyIncr c.perf (contentKey it.content) }
  else c

def getEngagementMetrics (interactions : List Interaction) :
    EngagementMetrics :=
  let c := interactions.foldl engStep ⟨0, 0, 0, 0, 0, []⟩
  { total_interactions := interactions.length
    posts_created := c.posts
    replies_sent := c.replies
    mentions_received := c.mentions
    likes_given := c.likes
    shares_made := c.shares
    engagement_rate :=
      if c.posts > 0 then
        ((c.replies + c.likes + c.shares : Nat) : ℚ) / (c.posts : ℚ) * 100
      else 0
    response_time_avg := 0
    top_performing_content :=
      (sortDescBy (fun q => (q.2 : ℚ)) c.perf).take 5 }

/-- The five categories of the engagement classifier, with the substring
tests and priority order of the source's if/elif chain. A type tag
matching none of the substrings classifies to `none`. -/
inductive EngCat where
  | post
  | reply
  | mention
  | like
  | share
deriving DecidableEq, Repr

def classifyType (t : String) : Option EngCat :=
  if substr "post" t || substr "tweet" t || substr "status" t then
    some .post
  else if substr "reply" t then some .reply
  else if substr "mention" t then some .mention
  else if substr "like" t || substr "favourite" t then some .like
  else if substr "boost" t || substr "retweet" t then some .share
  else none


theorem engStep_posts (c : EngCounters) (it : Interaction) :
    (engStep c it).posts =
      c.posts + (if classifyType it.type == some EngCat.post then 1 else 0) := by
  simp only [engStep, classifyType]
  split_ifs <;> simp_all

theorem engStep_replies (c : EngCounters) (it : Interaction) :
    (engStep c it).replies =
      c.replies +
        (if classifyType it.type == some EngCat.reply then 1 else 0) := by
  simp only [engStep, classifyType]
  split_ifs <;> simp_all

theorem engStep_mentions (c : EngCounters) (it : Interaction) :
    (engStep c it).mentions =
      c.mentions +
        (if classifyType it.type == some EngCat.mention then 1 else 0) := by
  simp only [engStep, classifyType]
  split_ifs <;> simp_all

theorem engStep_likes (c : EngCounters) (it : Interaction) :
    (engStep c it).likes =
      c.likes + (if classifyType it.type == some EngCat.like then 1 else 0) := by
  simp only [engStep, classifyType]
  split_ifs <;> simp_all

theorem engStep_shares (c : EngCounters) (it : Interaction) :
    (engStep c it).shares =
      c.shares +
        (if classifyType it.type == some EngCat.share then 1 else 0) := by
  simp only [engStep, classifyType]
  split_ifs <;> simp_all

theorem foldl_count_general (f : EngCounters → Nat) (p : Interaction → Bool)
    (hstep : ∀ c it, f (engStep c it) = f c + (if p it then 1 else 0))
    (its : List Interaction) (c : EngCounters) :
    f (its.foldl engStep c) = f c + its.countP p := by
  induction its generalizing c with
  | nil => simp
  | cons it rest ih =>
    rw [List.foldl_cons, ih, hstep, List.countP_cons]
    by_cases h : p it <;> simp [h]
    omega

theorem classify_countP_sum_le (its : List Interaction) :
    its.countP (fun it => classifyType it.type == some .post) +
    its.countP (fun it => classifyType it.type == some .reply) +
    its.countP (fun it => classifyType it.type == some .mention) +
    its.countP (fun it => classifyType it.type == some .like) +
    its.countP (fun it => classifyType it.type == some .share) ≤
      its.length := by
  induction its with
  | nil => simp
  | cons it rest ih =>
    simp only [List.countP_cons, List.length_cons]
    rcases h : classifyType it.type with _ | cat
    · simp [h]; omega
    · cases cat <;> simp [h] <;> omega

/-- C3 (amended): the engagement reducer classifies each record by a
first-match-wins substring chain — post/tweet/status → posts_created,
reply → replies_sent, mention → mentions_received, like/favourite →
likes_given, boost/retweet → shares_made, in that priority order — and a
record matching none of those substrings (such as a bare "share" tag) is
tallied in no category; each counter equals the number of records whose
type tag classifies to it. -/
theorem engagement_classifier_substring_priority (its : List Interaction) :
    (getEngagementMetrics its).posts_created =
        its.countP (fun it => classifyType it.type == some .post) ∧
    (getEngagementMetrics its).replies_sent =
        its.countP (fun it => classifyType it.type == some .reply) ∧
    (getEngagementMetrics its).mentions_received =
        its.countP (fun it => classifyType it.type == some .mention) ∧
    (getEngagementMetrics its).likes_given =
        its.countP (fun it => classifyType it.type == some .like) ∧
    (getEngagementMetrics its).shares_made =
        its.countP (fun it => classifyType it.type == some .share) := by
  refine ⟨?_, ?_, ?_, ?_, ?_⟩
  · simpa [getEngagementMetrics] using
      foldl_count_general (fun c => c.posts) _ engStep_posts its
        ⟨0, 0, 0, 0, 0, []⟩
  · simpa [getEngagementMetrics] using
      foldl_count_general (fun c => c.replies) _ engStep_replies its
        ⟨0, 0, 0, 0, 0, []⟩
  · simpa [getEngagementMetrics] using
      foldl_count_general (fun c => c.mentions) _ engStep_mentions its
        ⟨0, 0, 0, 0, 0, []⟩
  · simpa [getEngagementMetrics] using
      foldl_count_general (fun c => c.likes) _ engStep_likes its
        ⟨0, 0, 0, 0, 0, []⟩
  · simpa [getEngagementMetrics] using
      foldl_count_general (fun c => c.shares) _ engStep_shares its
        ⟨0, 0, 0, 0, 0, []⟩

/-- C3 (counterexample): a record whose type tag is exactly "share"
matches none of the classifier's substrings (which are boost/retweet for
the share category), so it is tallied in no category at all — refuting
both "every record is classified into exactly one of the five
categories" and "every type tag containing 'share' is tallied in
shares_made". -/
theorem share_type_not_tallied :
    (getEngagementMetrics [⟨"share", ""⟩]).total_interactions = 1 ∧
    (getEngagementMetrics [⟨"share", ""⟩]).shares_made = 0 ∧
    (getEngagementMetrics [⟨"share", ""⟩]).posts_created = 0 ∧
    (getEngagementMetrics [⟨"share", ""⟩]).replies_sent = 0 ∧
    (getEngagementMetrics [⟨"share", ""⟩]).mentions_received = 0 ∧
    (getEngagementMetrics [⟨"share", ""⟩]).likes_given = 0 := by
  decide

/-- C10: the elif chain increments at most one category counter per
record, so the five counters sum to at most `total_interactions`. -/
theorem engagement_counters_sum_le_total (its : List Interaction) :
    (getEngagementMetrics its).posts_created +
    (getEngagementMetrics its).replies_sent +
    (getEngagementMetrics its).mentions_received +
    (getEngagementMetrics its).likes_given +
    (getEngagementMetrics its).shares_made ≤
      (getEngagementMetrics its).total_interactions := by
  have key := classify_countP_sum_le its
  have hp := foldl_count_general (fun c => c.posts) _ engStep_posts its
    ⟨0, 0, 0, 0, 0, []⟩
  have hr := foldl_count_general (fun c => c.replies) _ engStep_replies its
    ⟨0, 0, 0, 0, 0, []⟩
  have hm := foldl_count_general (fun c => c.mentions) _ engStep_mentions its
    ⟨0, 0, 0, 0, 0, []⟩
  have hl := foldl_count_general (fun c => c.likes) _ engStep_likes its
    ⟨0, 0, 0, 0, 0, []⟩
  have hs := foldl_count_general (fun c => c.shares) _ engStep_shares its
    ⟨0, 0, 0, 0, 0, []⟩
  simp only [getEngagementMetrics, hp, hr, hm, hl, hs]
  omega

/-!
## Sales reducer — `Analytics._get_sales_data_in_period`

A raw payment-event hash: `parsedTs` is the `fromisoformat` result for
its timestamp field (`none` = field missing or unparsable, record
skipped), `dataOk` whether `json.loads` of its data field succeeds
(failure skips the record), `amount` the result of
`float(event_data.get("amount", 0))` (`none` = raises, aborting the rest
of that record's processing; an absent amount is `some 0`).
`timestampStr` is the raw timestamp string echoed into conversion
events.
-/

structure PaymentEvent where
  timestampStr : String
  parsedTs : Option PyDateTime
  type : String
  dataOk : Bool
  amount : Option ℚ
deriving Repr

structure ConversionEvent where
  type : String
  amount : ℚ
  timestamp : String
deriving DecidableEq, Repr

structure SalesData where
  total_sales : Nat
  total_revenue : ℚ
  total_refunds : Nat
  refund_amount : ℚ
  orders_created : Nat
  orders_completed : Nat
  conversion_events : List ConversionEvent
  net_revenue : ℚ
  conversion_rate : ℚ
deriving DecidableEq, Repr

def salesStep (start_date end_date : PyDateTime) (acc : SalesData)
    (e : PaymentEvent) : SalesData :=
  match e.parsedTs with
  | none => acc
  | some t =>
    if dtLE start_date t && dtLT t end_date then
      if e.dataOk then
        if substr "payment_completed" e.type then
          let acc := { acc with total_sales := acc.total_sales + 1 }
          match e.amount with
          | none => acc
          | some a =>
            { acc with
              total_revenue := acc.total_revenue + a
              conversion_events := acc.conversion_events ++
                [⟨"sale_completed", a, e.timestampStr⟩] }
        else if substr "order_created" e.type then
          { acc with orders_created := acc.orders_created + 1 }
        else if substr "payment_refunded" e.type then
          let acc := { acc with total_refunds := acc.total_refunds + 1 }
          match e.amount with
          | none => acc
          | some a => { acc with refund_amount := acc.refund_amount + a }
        else acc
      else acc
    else acc

def getSalesDataInPeriod (events : List PaymentEvent)
    (start_date end_date : PyDateTime) : SalesData :=
  let s := events.foldl (salesStep start_date end_date)
    ⟨0, 0, 0, 0, 0, 0, [], 0, 0⟩
  { s with
    net_revenue := s.total_revenue - s.refund_amount
    conversion_rate :=
      if s.orders_created > 0 then
        ((s.total_sales : ℚ) / (s.orders_created : ℚ)) * 100
      else 0 }

/-!
## Lead reducer — `Analytics._get_lead_metrics`

A raw sales-interaction hash, shared with the auto-learning sales
analysis: `parsedTs`/`timestampStr` as for payment events, `platformTag`
the value of `data.get("platform", "unknown")` when the payload decodes,
`response` the payload's response field if present, `dataHasPayment`
whether `str(data).lower()` contains "payment". `custLen cid` models
`len(db.lrange("customer_interactions:" + cid, 0, -1))`.
-/

structure SalesRec where
  timestampStr : String
  parsedTs : Option PyDateTime
  customer_id : String
  type : String
  dataOk : Bool
  platformTag : String
  response : Option String
  dataHasPayment : Bool
deriving Repr

structure LeadAcc where
  seen : List String
  qualified : Nat
  sources : List (String × Nat)
deriving DecidableEq, Repr

def leadStep (custLen : String → Nat) (start_date end_date : PyDateTime)
    (st : LeadAcc) (r : SalesRec) : LeadAcc :=
  match r.parsedTs with
  | none => st
  | some t =>
    if dtLE start_date t && dtLT t end_date then
      if r.customer_id ≠ "" then
        { seen :=
            if r.customer_id ∈ st.seen then st.seen
            else st.seen ++ [r.customer_id]
          qualified :=
            if custLen r.customer_id > 1 then st.qualified + 1
            else st.qualified
          sources :=
            if r.dataOk then tallyIncr st.sources r.platformTag
            else st.sources }
      else st
    else st

structure LeadMetrics where
  total_leads : Nat
  new_customers : Nat
  qualified_leads : Nat
  conversion_rate : ℚ
  lead_sources : List (String × Nat)
  lead_quality_score : ℚ
deriving DecidableEq, Repr

def getLeadMetrics (recs : List SalesRec) (custLen : String → Nat)
    (payments : List PaymentEvent) (start_date end_date : PyDateTime) :
    LeadMetrics :=
  let a := recs.foldl (leadStep custLen start_date end_date) ⟨[], 0, []⟩
  let total := a.seen.length
  { total_leads := total
    new_customers := total
    qualified_leads := a.qualified
    conversion_rate :=
      if total > 0 then
        ((getSalesDataInPeriod payments start_date end_date).total_sales : ℚ)
          / (total : ℚ) * 100
      else 0
    lead_sources := a.sources
    lead_quality_score :=
      if total > 0 then (a.qualified : ℚ) / (total : ℚ) * 100 else 0 }

/-- C4: every rate is guarded by its denominator check — engagement rate
is 0 whenever no posts were counted, sales conversion rate is 0 with no
orders created, lead conversion rate is 0 with no leads — and the
(total) rational division never raises. -/
theorem rate_zero_guards :
    (∀ its : List Interaction,
      (getEngagementMetrics its).posts_created = 0 →
        (getEngagementMetrics its).engagement_rate = 0) ∧
    (∀ (evs : List PaymentEvent) (sd ed : PyDateTime),
      (getSalesDataInPeriod evs sd ed).orders_created = 0 →
        (getSalesDataInPeriod evs sd ed).conversion_rate = 0) ∧
    (∀ (recs : List SalesRec) (custLen : String → Nat)
        (pays : List PaymentEvent) (sd ed : PyDateTime),
      (getLeadMetrics recs custLen pays sd ed).total_leads = 0 →
        (getLeadMetrics recs custLen pays sd ed).conversion_rate = 0) := by
  refine ⟨?_, ?_, ?_⟩
  · intro its h
    simp only [getEngagementMetrics] at h ⊢
    simp [h]
  · intro evs sd ed h
    simp only [getSalesDataInPeriod] at h ⊢
    simp [h]
  · intro recs custLen pays sd ed h
    simp only [getLeadMetrics] at h ⊢
    simp [h]

/-- Witness for `rate_zero_guards` on empty inputs. -/
theorem rate_zero_guards_witness :
    (getEngagementMetrics []).engagement_rate = 0 ∧
    (getSalesDataInPeriod [] ⟨2024, 1, 1, 0, 0, 0, 0⟩
        ⟨2024, 1, 2, 0, 0, 0, 0⟩).conversion_rate = 0 ∧
    (getLeadMetrics [] (fun _ => 0) [] ⟨2024, 1, 1, 0, 0, 0, 0⟩
        ⟨2024, 1, 2, 0, 0, 0, 0⟩).conversion_rate = 0 :=
  ⟨rate_zero_guards.1 [] rfl,
   rate_zero_guards.2.1 [] ⟨2024, 1, 1, 0, 0, 0, 0⟩
     ⟨2024, 1, 2, 0, 0, 0, 0⟩ rfl,
   rate_zero_guards.2.2 [] (fun _ => 0) [] ⟨2024, 1, 1, 0, 0, 0, 0⟩
     ⟨2024, 1, 2, 0, 0, 0, 0⟩ rfl⟩

/-- The per-record condition under which the lead reducer increments
`qualified_leads`: the record is in the window, has a nonempty
customer id, and that customer's all-time interaction list has more
than one entry. -/
def leadQualPred (custLen : String → Nat) (start_date end_date : PyDateTime)
    (r : SalesRec) : Bool :=
  (match r.parsedTs with
   | some t => dtLE start_date t && dtLT t end_date
   | none => false) &&
  !(r.customer_id == "") && decide (custLen r.customer_id > 1)

theorem leadStep_qualified (custLen : String → Nat)
    (sd ed : PyDateTime) (st : LeadAcc) (r : SalesRec) :
    (leadStep custLen sd ed st r).qualified =
      st.qualified + (if leadQualPred custLen sd ed r then 1 else 0) := by
  unfold leadStep leadQualPred
  rcases r.parsedTs with _ | t <;> simp <;> split_ifs <;> simp_all

theorem foldl_leadStep_qualified (custLen : String → Nat)
    (sd ed : PyDateTime) (recs : List SalesRec) (st : LeadAcc) :
    (recs.foldl (leadStep custLen sd ed) st).qualified =
      st.qualified + recs.countP (leadQualPred custLen sd ed) := by
  induction recs generalizing st with
  | nil => simp
  | cons r rest ih =>
    rw [List.foldl_cons, ih, leadStep_qualified, List.countP_cons]
    by_cases h : leadQualPred custLen sd ed r <;> simp [h]
    omega

/-- A concrete in-window sales interaction of customer "c1". -/
def sampleLeadRec : SalesRec :=
  { timestampStr := "2024-01-01T12:00:00"
    parsedTs := some ⟨2024, 1, 1, 12, 0, 0, 0⟩
    customer_id := "c1"
    type := "inquiry"
    dataOk := true
    platformTag := "twitter"
    response := none
    dataHasPayment := false }

/-- C9: `qualified_leads` is incremented once per in-window sales
interaction whose customer has more than one all-time interaction (not
once per unique customer); with one qualified customer appearing twice
in the window, `qualified_leads` exceeds `total_leads` and
`lead_quality_score` exceeds 100. -/
theorem qualified_leads_per_interaction :
    (∀ (recs : List SalesRec) (custLen : String → Nat)
        (pays : List PaymentEvent) (sd ed : PyDateTime),
      (getLeadMetrics recs custLen pays sd ed).qualified_leads =
        recs.countP (leadQualPred custLen sd ed)) ∧
    ((getLeadMetrics [sampleLeadRec, sampleLeadRec] (fun _ => 2) []
        ⟨2024, 1, 1, 0, 0, 0, 0⟩ ⟨2024, 1, 2, 0, 0, 0, 0⟩).total_leads = 1 ∧
     (getLeadMetrics [sampleLeadRec, sampleLeadRec] (fun _ => 2) []
        ⟨2024, 1, 1, 0, 0, 0, 0⟩ ⟨2024, 1, 2, 0, 0, 0, 0⟩).qualified_leads
        = 2 ∧
     (getLeadMetrics [sampleLeadRec, sampleLeadRec] (fun _ => 2) []
        ⟨2024, 1, 1, 0, 0, 0, 0⟩
        ⟨2024, 1, 2, 0, 0, 0, 0⟩).lead_quality_score > 100) := by
  constructor
  · intro recs custLen pays sd ed
    simpa [getLeadMetrics] using
      foldl_leadStep_qualified custLen sd ed recs ⟨[], 0, []⟩
  · have hfold :
        [sampleLeadRec, sampleLeadRec].foldl
          (leadStep (fun _ => 2) ⟨2024, 1, 1, 0, 0, 0, 0⟩
            ⟨2024, 1, 2, 0, 0, 0, 0⟩) ⟨[], 0, []⟩ =
          ⟨["c1"], 2, [("twitter", 2)]⟩ := by decide
    refine ⟨?_, ?_, ?_⟩ <;> simp only [getLeadMetrics, hfold] <;> norm_num

/-!
## Pattern miner core — `LearningModule._find_common_patterns`
-/

/-- `Counter[pattern] += 1` on an insertion-ordered counter. -/
def counterIncr (c : List (List String × Nat)) (p : List String) :
    List (List String × Nat) :=
  if c.any (fun q => q.1 == p) then
    c.map (fun q => if q.1 == p then (q.1, q.2 + 1) else q)
  else c ++ [(p, 1)]

/-- `range(2, min(5, len(sequence) + 1))`. -/
def subseqLengths (n : Nat) : List Nat :=
  List.range' 2 (min 5 (n + 1) - 2)

/-- `sequence[i:i + length]` for `i in range(len(sequence) - length + 1)`
(only invoked with `length ≤ len(sequence)`). -/
def windowsOfLen (s : List String) (len : Nat) : List (List String) :=
  (List.range (s.length - len + 1)).map (fun i => (s.drop i).take len)

def patternCounts (sequences : List (List String)) :
    List (List String × Nat) :=
  sequences.foldl
    (fun c s =>
      (subseqLengths s.length).foldl
        (fun c len => (windowsOfLen s len).foldl counterIncr c) c)
    []

structure PatternInfo where
  pattern : List String
  frequency : Nat
  percentage : ℚ
deriving DecidableEq, Repr

def findCommonPatterns (sequences : List (List String)) :
    List PatternInfo :=
  if sequences.isEmpty then []
  else
    -- Counter.most_common(5): stable descending sort by count, first 5
    let top := (sortDescBy (fun q => (q.2 : ℚ)) (patternCounts sequences)).take 5
    top.filterMap (fun q =>
      if q.2 > 1 then
        some ⟨q.1, q.2, (q.2 : ℚ) / (sequences.length : ℚ) * 100⟩
      else none)

/-- A pattern the miner may report: a contiguous run of length 2–4 of
one of the input sequences. -/
def goodPat (seqs : List (List String)) (p : List String) : Prop :=
  2 ≤ p.length ∧ p.length ≤ 4 ∧ ∃ s ∈ seqs, ∃ pre post, pre ++ p ++ post = s

theorem mem_insDesc {α} (key : α → ℚ) (x : α) (l : List α) (y : α)
    (h : y ∈ insDesc key x l) : y = x ∨ y ∈ l := by
  induction l with
  | nil => simpa [insDesc] using h
  | cons z zs ih =>
    unfold insDesc at h
    split_ifs at h with hc
    · simpa using h
    · rcases List.mem_cons.1 h with h | h
      · exact Or.inr (by simp [h])
      · rcases ih h with h | h
        · exact Or.inl h
        · exact Or.inr (by simp [h])

theorem mem_sortDescBy {α} (key : α → ℚ) (l : List α) (y : α)
    (h : y ∈ sortDescBy key l) : y ∈ l := by
  suffices hgen : ∀ (l : List α) (acc : List α), y ∈ l.foldl
      (fun acc x => insDesc key x acc) acc → y ∈ acc ∨ y ∈ l by
    rcases hgen l [] h with h' | h'
    · simp at h'
    · exact h'
  intro l
  induction l with
  | nil => intro acc h; exact Or.inl h
  | cons z zs ih =>
    intro acc h
    rcases ih (insDesc key z acc) h with h' | h'
    · rcases mem_insDesc key z acc y h' with h'' | h''
      · exact Or.inr (by simp [h''])
      · exact Or.inl h''
    · exact Or.inr (by simp [h'])

theorem counterIncr_fst (P : List String → Prop)
    (c : List (List String × Nat)) (p : List String)
    (hc : ∀ q ∈ c, P q.1) (hp : P p) :
    ∀ q ∈ counterIncr c p, P q.1 := by
  intro q hq
  unfold counterIncr at hq
  split_ifs at hq with hmem
  · rcases List.mem_map.1 hq with ⟨r, hr, hrq⟩
    by_cases h : r.1 == p
    · simp only [h, if_pos] at hrq
      subst hrq
      exact hc r hr
    · simp only [h] at hrq
      simp at hrq
      subst hrq
      exact hc r hr
  · rcases List.mem_append.1 hq with h | h
    · exact hc q h
    · simp at h
      subst h
      exact hp

theorem foldl_counterIncr_fst (P : List String → Prop)
    (ps : List (List String)) (c : List (List String × Nat))
    (hc : ∀ q ∈ c, P q.1) (hps : ∀ p ∈ ps, P p) :
    ∀ q ∈ ps.foldl counterIncr c, P q.1 := by
  induction ps generalizing c with
  | nil => exact fun q hq => hc q hq
  | cons p rest ih =>
    intro q hq
    exact ih (counterIncr c p)
      (counterIncr_fst P c p hc (hps p (by simp)))
      (fun r hr => hps r (by simp [hr])) q hq

theorem windowsOfLen_good (seqs : List (List String)) (s : List String)
    (hs : s ∈ seqs) (len : Nat) (hlen : len ∈ subseqLengths s.length) :
    ∀ p ∈ windowsOfLen s len, goodPat seqs p := by
  intro p hp
  rcases List.mem_map.1 hp with ⟨i, hi, hip⟩
  rw [List.mem_range] at hi
  rw [subseqLengths, List.mem_range'_1] at hlen
  have hlen4 : 2 ≤ len ∧ len ≤ 4 ∧ len ≤ s.length := by omega
  have hiles : i + len ≤ s.length := by omega
  subst hip
  refine ⟨?_, ?_, s, hs, s.take i, (s.drop i).drop len, ?_⟩
  · rw [List.length_take, List.length_drop]; omega
  · rw [List.length_take, List.length_drop]; omega
  · rw [List.append_assoc, List.take_append_drop, List.take_append_drop]

theorem patternCounts_good (seqs : List (List String)) :
    ∀ q ∈ patternCounts seqs, goodPat seqs q.1 := by
  suffices hgen : ∀ (l : List (List String)) (c : List (List String × Nat)),
      (∀ s ∈ l, s ∈ seqs) → (∀ q ∈ c, goodPat seqs q.1) →
      ∀ q ∈ l.foldl
        (fun c s =>
          (subseqLengths s.length).foldl
            (fun c len => (windowsOfLen s len).foldl counterIncr c) c) c,
        goodPat seqs q.1 by
    exact hgen seqs [] (fun s hs => hs) (by simp)
  intro l
  induction l with
  | nil => intro c _ hc q hq; exact hc q hq
  | cons s rest ih =>
    intro c hl hc q hq
    refine ih _ (fun r hr => hl r (by simp [hr])) ?_ q hq
    -- the inner fold over subsequence lengths preserves the invariant
    have hsseqs : s ∈ seqs := hl s (by simp)
    have hinner : ∀ (lens : List Nat) (c : List (List String × Nat)),
        (∀ len ∈ lens, len ∈ subseqLengths s.length) →
        (∀ q ∈ c, goodPat seqs q.1) →
        ∀ q ∈ lens.foldl
          (fun c len => (windowsOfLen s len).foldl counterIncr c) c,
          goodPat seqs q.1 := by
      intro lens
      induction lens with
      | nil => intro c _ hc q hq; exact hc q hq
      | cons len rest2 ih2 =>
        intro c hlens hc q hq
        refine ih2 _ (fun x hx => hlens x (by simp [hx])) ?_ q hq
        exact foldl_counterIncr_fst _ _ _ hc
          (windowsOfLen_good seqs s hsseqs len (hlens len (by simp)))
    exact hinner _ c (fun len hlen => hlen) hc

theorem pairwise_insDesc {α} (key : α → ℚ) (x : α) (l : List α)
    (h : l.Pairwise (fun a b => key b ≤ key a)) :
    (insDesc key x l).Pairwise (fun a b => key b ≤ key a) := by
  induction l with
  | nil => simp [insDesc]
  | cons y ys ih =>
    rw [List.pairwise_cons] at h
    unfold insDesc
    split_ifs with hc
    · refine List.Pairwise.cons ?_ (List.Pairwise.cons h.1 h.2)
      intro z hz
      rcases List.mem_cons.1 hz with hz | hz
      · exact le_of_lt (hz ▸ hc)
      · exact le_trans (h.1 z hz) (le_of_lt hc)
    · refine List.Pairwise.cons ?_ (ih h.2)
      intro z hz
      rcases mem_insDesc key x ys z hz with hz | hz
      · exact hz ▸ le_of_not_lt hc
      · exact h.1 z hz

theorem pairwise_sortDescBy {α} (key : α → ℚ) (l : List α) :
    (sortDescBy key l).Pairwise (fun a b => key b ≤ key a) := by
  suffices hgen : ∀ (l acc : List α),
      acc.Pairwise (fun a b => key b ≤ key a) →
      (l.foldl (fun acc x => insDesc key x acc) acc).Pairwise
        (fun a b => key b ≤ key a) from hgen l [] (by simp)
  intro l
  induction l with
  | nil => exact fun acc h => h
  | cons x xs ih => exact fun acc h => ih _ (pairwise_insDesc key x acc h)

theorem pairwise_filterMap_of_pairwise {α β} (f : α → Option β)
    (R : α → α → Prop) (S : β → β → Prop)
    (hf : ∀ a b x y, R a b → f a = some x → f b = some y → S x y)
    (l : List α) (h : l.Pairwise R) : (l.filterMap f).Pairwise S := by
  induction l with
  | nil => simp
  | cons a l ih =>
    rw [List.pairwise_cons] at h
    rw [List.filterMap_cons]
    cases hfa : f a with
    | none => exact ih h.2
    | some b =>
      refine List.Pairwise.cons ?_ (ih h.2)
      intro y hy
      rcases List.mem_filterMap.1 hy with ⟨a2, ha2, hfa2⟩
      exact hf a a2 b y (h.1 a2 ha2) hfa hfa2

/-- The sequence set of the spec's worked example. -/
def exSeqs : List (List String) := [["A", "B", "C"], ["A", "B", "D"], ["A", "B", "C"]]

/-- C1: on the worked example the miner reports pattern (A,B) with
frequency 3 and percentage 100; in general it returns at most 5
patterns ordered by non-increasing frequency, each reported pattern
occurred at least twice, its percentage is
frequency / number-of-sequences * 100, and it is a sliding-window
subsequence of length 2–4 of one of the inputs. -/
theorem findCommonPatterns_spec :
    (⟨["A", "B"], 3, 100⟩ : PatternInfo) ∈ findCommonPatterns exSeqs ∧
    ∀ seqs : List (List String),
      (findCommonPatterns seqs).length ≤ 5 ∧
      (findCommonPatterns seqs).Pairwise
        (fun a b => b.frequency ≤ a.frequency) ∧
      ∀ pi ∈ findCommonPatterns seqs,
        2 ≤ pi.frequency ∧
        pi.percentage = (pi.frequency : ℚ) / (seqs.length : ℚ) * 100 ∧
        goodPat seqs pi.pattern := by
  constructor
  · have hpc : patternCounts exSeqs =
        [(["A", "B"], 3), (["B", "C"], 2), (["A", "B", "C"], 2),
         (["B", "D"], 1), (["A", "B", "D"], 1)] := by decide
    simp only [findCommonPatterns, hpc]
    norm_num [sortDescBy, insDesc, List.filterMap, List.take, exSeqs]
  · intro seqs
    refine ⟨?_, ?_, ?_⟩
    · by_cases hemp : seqs.isEmpty
      · simp [findCommonPatterns, hemp]
      · simp only [findCommonPatterns, hemp, Bool.false_eq_true, if_false]
        refine le_trans (List.length_filterMap_le _ _) ?_
        rw [List.length_take]
        exact min_le_left _ _
    · by_cases hemp : seqs.isEmpty
      · simp [findCommonPatterns, hemp]
      · simp only [findCommonPatterns, hemp, Bool.false_eq_true, if_false]
        refine pairwise_filterMap_of_pairwise _
          (fun a b => ((b.2 : Nat) : ℚ) ≤ ((a.2 : Nat) : ℚ)) _ ?_ _ ?_
        · intro a b x y hR hx hy
          split_ifs at hx hy
          cases hx
          cases hy
          exact_mod_cast hR
        · exact ((pairwise_sortDescBy _ _).sublist
            (List.take_sublist _ _)).imp (fun h => h)
    · intro pi hpi
      by_cases hemp : seqs.isEmpty
      · simp [findCommonPatterns, hemp] at hpi
      · simp only [findCommonPatterns, hemp, Bool.false_eq_true,
          if_false] at hpi
        rcases List.mem_filterMap.1 hpi with ⟨q, hqtop, hq⟩
        split_ifs at hq with hfreq
        cases hq
        refine ⟨hfreq, rfl, ?_⟩
        exact patternCounts_good seqs q
          (mem_sortDescBy _ _ q (List.mem_of_mem_take hqtop))

/-- Witness for `findCommonPatterns_spec` at the reported (A,B) pattern
of the worked example. -/
theorem findCommonPatterns_spec_witness :
    2 ≤ (⟨["A", "B"], 3, (100 : ℚ)⟩ : PatternInfo).frequency ∧
    (⟨["A", "B"], 3, (100 : ℚ)⟩ : PatternInfo).percentage =
      ((⟨["A", "B"], 3, (100 : ℚ)⟩ : PatternInfo).frequency : ℚ) /
        (exSeqs.length : ℚ) * 100 ∧
    goodPat exSeqs (⟨["A", "B"], 3, (100 : ℚ)⟩ : PatternInfo).pattern :=
  (findCommonPatterns_spec.2 exSeqs).2.2 ⟨["A", "B"], 3, 100⟩
    findCommonPatterns_spec.1

/-!
## Pattern Miner — `LearningModule` analyses

A raw interaction hash as the learning analyses read it: `hasData`
whether the hash has a `data` field, `dataOk` whether `json.loads` of it
succeeds (with no data field the code decodes the default "{}", which
succeeds), `content` the value of `data.get("content", "")`, `hasSales`
/ `hasFollow` whether `str(data).lower()` contains "sales" / "follow"
(necessarily false when there is no data field), `parsedTs` as before.
-/

structure InteractionRec where
  type : String
  timestampStr : String
  parsedTs : Option PyDateTime
  hasData : Bool
  dataOk : Bool
  content : String
  hasSales : Bool
  hasFollow : Bool
deriving Repr

/-- `LearningModule._categorize_content`. -/
def categorizeContent (content : String) : String :=
  let cl := content.toLower
  if ["buy", "purchase", "sale", "offer", "discount"].any
      (fun w => substr w cl) then "promotional"
  else if ["how", "why", "what", "guide", "tip"].any
      (fun w => substr w cl) then "educational"
  else if ["?", "question", "ask", "help"].any
      (fun w => substr w cl) then "question"
  else if ["thank", "appreciate", "grateful"].any
      (fun w => substr w cl) then "appreciation"
  else if ["new", "update", "announce", "launch"].any
      (fun w => substr w cl) then "announcement"
  else "general"

/-- `LearningModule._estimate_engagement`: the base-score dict is probed
in its insertion order post, reply, like, share, mention, dm; `hasSales`
and `hasFollow` stand for the two `str(data).lower()` containment
tests. -/
def estimateEngagement (interaction_type : String)
    (hasSales hasFollow : Bool) : ℚ :=
  let tl := interaction_type.toLower
  let score : ℚ :=
    if substr "post" tl then 1
    else if substr "reply" tl then 2
    else if substr "like" tl then 3 / 2
    else if substr "share" tl then 3
    else if substr "mention" tl then 5 / 2
    else if substr "dm" tl then 4
    else 0
  let score := if hasSales then score * (3 / 2) else score
  if hasFollow then score * (13 / 10) else score

/-- Python `content.lower().split()` (whitespace split, no empties). -/
def splitWords (s : String) : List String :=
  (s.split (fun c => c.isWhitespace)).filter (fun w => w ≠ "")

structure LengthStats where
  average : ℚ
  median : Nat
  recommended_range : Option (List Int)
deriving DecidableEq, Repr

/-- Length statistics per platform; `int(x)` on the nonnegative float
mean is modelled as the floor (0.8 and 1.2 as exact 8/10 and 12/10). -/
def contentLengthStats (lengths : List Nat) : LengthStats :=
  let avg := ((lengths.sum : ℚ)) / (lengths.length : ℚ)
  { average := avg
    median := (sortAscNat lengths).getD (lengths.length / 2) 0
    recommended_range := some [⌊avg * (8 / 10)⌋, ⌊avg * (12 / 10)⌋] }

structure ContentAnalysis where
  high_performing_keywords : List String
  optimal_content_length : List (String × LengthStats)
  best_content_types : List (String × List (String × ℚ))
  engagement_triggers : List String
deriving DecidableEq, Repr

def ContentAnalysis.empty : ContentAnalysis := ⟨[], [], [], []⟩

structure CPAcc where
  perf : List (String × List ℚ)
  lengths : List Nat
  kw : List (String × Nat)
deriving Repr

def contentStep (acc : CPAcc) (r : InteractionRec) : CPAcc :=
  if r.hasData && r.dataOk then
    if r.content ≠ "" then
      { lengths := acc.lengths ++ [r.content.length]
        kw := (splitWords r.content.toLower).foldl
          (fun kw w =>
            if w.length > 3 && w.toList.all Char.isAlpha then
              tallyIncr kw w
            else kw)
          acc.kw
        perf := appendToKey acc.perf (categorizeContent r.content)
          (estimateEngagement r.type r.hasSales r.hasFollow) }
    else acc
  else acc

/-- Models `list(set(...))`: Python's set iteration order is a fixed
function of the elements within one process (hash-seed dependent across
processes); first-occurrence order is one such fixed function. -/
def dedupKeepFirst (l : List String) : List String :=
  l.foldl (fun acc x => if x ∈ acc then acc else acc ++ [x]) []

/-- The platforms the analyses iterate over, in order. -/
def learningPlatforms : List String := ["twitter", "mastodon", "discord"]

structure TimingAnalysis where
  optimal_hours : List (String × List Nat)
  optimal_days : List (String × List String)
  platform_specific_timing :
    List (String × (List (Nat × ℚ) × List (String × ℚ)))
deriving DecidableEq, Repr

def TimingAnalysis.empty : TimingAnalysis := ⟨[], [], []⟩

/-- One step of a reconstructed customer journey: the record's type tag,
raw timestamp string, and whether `str(data).lower()` contains
"payment". -/
structure JStep where
  type : String
  timestamp : String
  dataHasPayment : Bool
deriving DecidableEq, Repr

structure JourneyPatterns where
  average_touchpoints : ℚ
  conversion_rate : ℚ
  common_conversion_paths : List PatternInfo
deriving DecidableEq, Repr

structure SalesAnalysis where
  conversion_triggers : List String
  customer_journey_patterns : Option JourneyPatterns
  effective_sales_messages : List (String × ℚ)
  objection_handling_success : List (String × ℚ)
deriving DecidableEq, Repr

structure AnalysisResults where
  content_performance : ContentAnalysis
  timing_patterns : TimingAnalysis
  sales_patterns : SalesAnalysis
deriving DecidableEq, Repr

structure Insight where
  type : String
  priority : String
  insight : String
  action : String
  expected_impact : String
deriving DecidableEq, Repr

/-- The learning-patterns document fields that `run_learning_cycle`,
`apply_learned_optimizations` and `get_learning_status` read or write;
absent keys of a loaded JSON object are the `Option`/default values
(the six template sub-dicts set in `__init__` are written but never read
back by the embedded operations and are omitted). -/
structure LearningPatterns where
  cycle_count : Nat
  last_analysis : Option String
  analysis_results : Option AnalysisResults
  generated_insights : List Insight
deriving DecidableEq, Repr

def initialLearningPatterns : LearningPatterns :=
  { cycle_count := 0, last_analysis := none, analysis_results := none,
    generated_insights := [] }

/-- A learning-patterns JSON value as `json.loads` may produce it:
an object (duck-typed onto the fields above) or a non-object value such
as a list — `json.loads("[]")` is accepted by `_load_existing_patterns`
and leaves `self.learning_patterns` a list. -/
inductive LPValue where
  | dict (lp : LearningPatterns)
  | nonDict
deriving DecidableEq, Repr

/-- The strategy_updates document written by `_update_strategies`:
content_strategy.priority_keywords, timing_strategy (platform → times),
sales_strategy.recommended_touchpoints,
platform_strategy.content_preferences. -/
structure StrategyUpdates where
  priority_keywords : Option (List String)
  timing_strategy : List (String × List String)
  recommended_touchpoints : Option ℚ
  content_preferences : Option String
deriving DecidableEq, Repr

def StrategyUpdates.empty : StrategyUpdates := ⟨none, [], none, none⟩

/-- The log store as the learning module consumes it: per-platform
interaction logs, the global sales-interaction log, the per-customer
interaction-list lengths, and the two persisted scalar documents
(stored values modelled structurally rather than as JSON text). -/
structure DB where
  interactions : String → List InteractionRec
  sales_interactions : List SalesRec
  customer_interactions_len : String → Nat
  learning_patterns_stored : Option LPValue
  strategy_updates_stored : Option StrategyUpdates

/-- `LearningModule._analyze_content_performance` (lrange 0..100 reads
the first 101 records per platform). -/
def analyzeContentPerformance (db : DB) : ContentAnalysis :=
  let step := fun (ca : ContentAnalysis) (p : String) =>
    let acc := ((db.interactions p).take 101).foldl contentStep ⟨[], [], []⟩
    let ca :=
      if acc.lengths ≠ [] then
        { ca with optimal_content_length :=
            ca.optimal_content_length ++ [(p, contentLengthStats acc.lengths)] }
      else ca
    let ca :=
      if acc.perf ≠ [] then
        let type_averages := (acc.perf.filter (fun q => q.2 ≠ [])).map
          (fun q => (q.1, listAvg q.2))
        { ca with best_content_types := ca.best_content_types ++
            [(p, (sortDescBy (fun q => q.2) type_averages).take 3)] }
      else ca
    let top_keywords :=
      ((sortDescBy (fun q => (q.2 : ℚ)) acc.kw).take 10).map (fun q => q.1)
    { ca with high_performing_keywords :=
        ca.high_performing_keywords ++ top_keywords }
  let ca := learningPlatforms.foldl step ContentAnalysis.empty
  { ca with high_performing_keywords :=
      (dedupKeepFirst ca.high_performing_keywords).take 15 }

structure TimingAcc where
  hourEng : List (Nat × List ℚ)
  dayEng : List (String × List ℚ)
deriving Repr

def timingStep (acc : TimingAcc) (r : InteractionRec) : TimingAcc :=
  match r.parsedTs with
  | none => acc
  | some t =>
    -- json.loads(interaction.get("data", "{}")): raises only when a data
    -- field is present and undecodable; with no data field the payload
    -- is {}, whose str() contains neither "sales" nor "follow"
    if r.hasData && !r.dataOk then acc
    else
      let score := estimateEngagement r.type (r.hasData && r.hasSales)
        (r.hasData && r.hasFollow)
      { hourEng := appendToKey acc.hourEng t.hour score
        dayEng := appendToKey acc.dayEng t.dayName score }

/-- Fold state for `_analyze_timing_patterns`: the analysis under
construction plus the latest `hour_averages` / `day_averages` local
variables, which Python leaks across platform iterations (the
`'hour_averages' in locals()` probe). -/
structure TimingFoldState where
  ta : TimingAnalysis
  hourAvgs : Option (List (Nat × ℚ))
  dayAvgs : Option (List (String × ℚ))

/-- `LearningModule._analyze_timing_patterns` (lrange 0..200 reads the
first 201 records per platform). -/
def analyzeTimingPatterns (db : DB) : TimingAnalysis :=
  let step := fun (st : TimingFoldState) (p : String) =>
    let acc := ((db.interactions p).take 201).foldl timingStep ⟨[], []⟩
    let st :=
      if acc.hourEng ≠ [] then
        let hour_averages := (acc.hourEng.filter (fun q => q.2 ≠ [])).map
          (fun q => (q.1, listAvg q.2))
        let best_hours :=
          ((sortDescBy (fun q => q.2) hour_averages).take 3).map
            (fun q => q.1)
        { st with
          ta := { st.ta with optimal_hours :=
            st.ta.optimal_hours ++ [(p, best_hours)] }
          hourAvgs := some hour_averages }
      else st
    let st :=
      if acc.dayEng ≠ [] then
        let day_averages := (acc.dayEng.filter (fun q => q.2 ≠ [])).map
          (fun q => (q.1, listAvg q.2))
        let best_days :=
          ((sortDescBy (fun q => q.2) day_averages).take 3).map
            (fun q => q.1)
        { st with
          ta := { st.ta with optimal_days :=
            st.ta.optimal_days ++ [(p, best_days)] }
          dayAvgs := some day_averages }
      else st
    let hour_perf := match st.hourAvgs with
      | some ha => sortDescBy (fun q => q.2) ha
      | none => []
    let day_perf := match st.dayAvgs with
      | some da => sortDescBy (fun q => q.2) da
      | none => []
    { st with ta := { st.ta with platform_specific_timing :=
        st.ta.platform_specific_timing ++ [(p, (hour_perf, day_perf))] } }
  (learningPlatforms.foldl step ⟨TimingAnalysis.empty, none, none⟩).ta

structure SPAcc where
  journeys : List (String × List JStep)
  messageEff : List (String × List ℚ)
deriving Repr

def salesPatternStep (acc : SPAcc) (r : SalesRec) : SPAcc :=
  if r.dataOk then
    let jstep : JStep := ⟨r.type, r.timestampStr, r.dataHasPayment⟩
    let acc :=
      if r.customer_id ≠ "" then
        { acc with journeys := appendToKey acc.journeys r.customer_id jstep }
      else acc
    match r.response with
    | some resp =>
      let score := (resp.length : ℚ) / 100
      let score := if substr "payment" resp.toLower then score * 2 else score
      let score := if substr "?" resp then score * (3 / 2) else score
      { acc with messageEff := appendToKey acc.messageEff r.type score }
    | none => acc
  else acc

/-- `LearningModule._analyze_sales_patterns` (first 101 global sales
interactions). -/
def analyzeSalesPatterns (db : DB) : SalesAnalysis :=
  let acc := (db.sales_interactions.take 101).foldl salesPatternStep ⟨[], []⟩
  let journey_lengths := acc.journeys.map (fun q => q.2.length)
  let conversion_paths := acc.journeys.filterMap (fun q =>
    if q.2.any (fun s => s.dataHasPayment) then
      some (q.2.map (fun s => s.type))
    else none)
  let jp : Option JourneyPatterns :=
    if journey_lengths ≠ [] then
      some
        { average_touchpoints :=
            (journey_lengths.sum : ℚ) / (journey_lengths.length : ℚ)
          conversion_rate :=
            (conversion_paths.length : ℚ) / (acc.journeys.length : ℚ) * 100
          common_conversion_paths := findCommonPatterns conversion_paths }
    else none
  let msgs :=
    if acc.messageEff ≠ [] then
      (sortDescBy (fun q => q.2)
        ((acc.messageEff.filter (fun q => q.2 ≠ [])).map
          (fun q => (q.1, listAvg q.2)))).take 5
    else []
  { conversion_triggers := []
    customer_journey_patterns := jp
    effective_sales_messages := msgs
    objection_handling_success := [] }

def analysisResults (db : DB) : AnalysisResults :=
  { content_performance := analyzeContentPerformance db
    timing_patterns := analyzeTimingPatterns db
    sales_patterns := analyzeSalesPatterns db }

/-!
## Insight Generator — `LearningModule._generate_insights`
-/

/-- Python f-string `{x:.1f}` for the nonnegative averages formatted
here (decimal rounding of the binary float is immaterial for the claims
settled below). -/
def fmt1 (q : ℚ) : String :=
  let n := (⌊q * 10 + 1 / 2⌋).toNat
  toString (n / 10) ++ "." ++ toString (n % 10)

/-- A single-quote character, for Python dict reprs. -/
def squote : String := String.singleton (Char.ofNat 39)

/-- Python `str` of a string-to-string dict, e.g. of
`{"twitter": "promotional"}`. -/
def pyDictRepr (d : List (String × String)) : String :=
  "\x7b" ++
    joinComma (d.map (fun q =>
      squote ++ q.1 ++ squote ++ ": " ++ squote ++ q.2 ++ squote)) ++
    "\x7d"

def generateInsights (ar : AnalysisResults) : List Insight :=
  let ca := ar.content_performance
  let i1 : List Insight :=
    if ca.high_performing_keywords ≠ [] then
      [{ type := "content_optimization"
         priority := "high"
         insight := "Top performing keywords: " ++
           joinComma (ca.high_performing_keywords.take 5)
         action := "Incorporate these keywords more frequently in content"
         expected_impact := "15-25% increase in engagement" }]
    else []
  let i2 : List Insight :=
    ar.timing_patterns.optimal_hours.filterMap (fun q =>
      if q.2 ≠ [] then
        some
          { type := "timing_optimization"
            priority := "medium"
            insight := "Best posting times for " ++ q.1 ++ ": " ++
              joinComma (q.2.map (fun h => toString h)) ++ ":00"
            action := "Schedule more posts during these hours on " ++ q.1
            expected_impact := "10-20% increase in engagement" }
      else none)
  let i3 : List Insight :=
    match ar.sales_patterns.customer_journey_patterns with
    | some jp =>
      if jp.average_touchpoints ≠ 0 then
        [{ type := "sales_optimization"
           priority := "high"
           insight := "Average customer needs " ++
             fmt1 jp.average_touchpoints ++ " touchpoints before conversion"
           action :=
             "Develop nurture sequences with appropriate follow-up timing"
           expected_impact := "20-30% improvement in conversion rate" }]
      else []
    | none => []
  let platform_performance :=
    learningPlatforms.foldl (fun pp p =>
      match lookupKey ca.best_content_types p with
      | some l => if l ≠ [] then pp ++ [(p, (l.headD ("general", 0)).1)]
                  else pp
      | none => pp) []
  let i4 : List Insight :=
    if platform_performance ≠ [] then
      [{ type := "platform_optimization"
         priority := "medium"
         insight := "Platform content preferences: " ++
           pyDictRepr platform_performance
         action := "Tailor content types to each platform's preferences"
         expected_impact := "12-18% increase in platform-specific engagement" }]
    else []
  i1 ++ i2 ++ i3 ++ i4

/-!
## Strategy Store — `LearningModule._update_strategies`
-/

/-- Python `s.split(sep)[-1]` (split never returns an empty list). -/
def splitLast (s sep : String) : String :=
  (s.splitOn sep).getLastD ""

/-- Python `s.split(sep)[0]`. -/
def splitHead (s sep : String) : String :=
  (s.splitOn sep).headD ""

/-- Python dict assignment `d[k] = v` on an insertion-ordered assoc
list: replaces in place, appends when new. -/
def setKey (l : List (String × α)) (k : String) (v : α) :
    List (String × α) :=
  if l.any (fun q => q.1 == k) then
    l.map (fun q => if q.1 == k then (q.1, v) else q)
  else l ++ [(k, v)]

/-- Python `float(s)` on the unsigned decimal literals that the
touchpoints re-parse can receive (other float() spellings never arise
from `fmt1`): optional fractional part, whitespace-trimmed. -/
def parseFloatQ (s : String) : Option ℚ :=
  let t := s.trim
  match t.splitOn "." with
  | [a] =>
    if a ≠ "" && a.toList.all Char.isDigit then
      (a.toNat?).map (fun n => (n : ℚ))
    else none
  | [a, b] =>
    if (a ++ b) ≠ "" && a.toList.all Char.isDigit &&
        b.toList.all Char.isDigit then
      ((a ++ b).toNat?).map (fun n => (n : ℚ) / ((10 : ℚ) ^ b.length))
    else none
  | _ => none

def strategyStep (su : StrategyUpdates) (i : Insight) : StrategyUpdates :=
  if i.type == "content_optimization" then
    let keywords := if substr ": " i.insight then splitLast i.insight ": "
                    else ""
    if keywords ≠ "" then
      { su with priority_keywords := some (keywords.splitOn ", ") }
    else su
  else if i.type == "timing_optimization" then
    let platform := if substr " for " i.insight then
        splitHead (splitLast i.insight " for ") ":"
      else ""
    let times := if substr ": " i.insight then splitLast i.insight ": "
                 else ""
    if platform ≠ "" && times ≠ "" then
      { su with timing_strategy :=
          setKey su.timing_strategy platform (times.splitOn ", ") }
    else su
  else if i.type == "sales_optimization" then
    if substr "touchpoints" i.insight then
      let touchpoints :=
        splitHead (splitLast i.insight " needs ") " touchpoints"
      match parseFloatQ touchpoints with
      | some f => { su with recommended_touchpoints := some f }
      | none => su
    else su
  else if i.type == "platform_optimization" then
    { su with content_preferences := some i.insight }
  else su

/-- The strategy_updates document derived from a cycle's insights. -/
def strategyDoc (insights : List Insight) : StrategyUpdates :=
  insights.foldl strategyStep StrategyUpdates.empty

/-!
## Learning Cycle Orchestrator — `LearningModule.run_learning_cycle`

Store writes are modelled as succeeding; `_update_strategies` and
`_save_patterns` swallow their own exceptions, so in the un-modelled
store-failure case they simply leave the old value, which no claim here
depends on. The two `datetime.utcnow().isoformat()` reads of a cycle are
modelled by the single clock parameter `now`.
-/

structure ModuleState where
  learning_patterns : LPValue

/-- `_load_existing_patterns`: an absent (or empty) stored document
keeps the constructor's initial patterns; otherwise the parsed JSON
value is installed as is, whatever its shape. -/
def loadExistingPatterns (db : DB) : ModuleState :=
  match db.learning_patterns_stored with
  | none => ⟨.dict initialLearningPatterns⟩
  | some v => ⟨v⟩

/-- `_update_strategies`: derives and persists the strategy document
(its own try/except means it never raises into the cycle). -/
def updateStrategiesDB (insights : List Insight) (db : DB) : DB :=
  { db with strategy_updates_stored := some (strategyDoc insights) }

/-- `_save_patterns`. -/
def savePatterns (lp : LearningPatterns) (db : DB) : DB :=
  { db with learning_patterns_stored := some (.dict lp) }

structure CycleSummary where
  cycle_completed_at : String
  insights_generated : Nat
  analysis_results : AnalysisResults
  insights : List Insight
  improvements_implemented : Nat
deriving DecidableEq, Repr

/-- `run_learning_cycle`'s return value: the summary dict on success,
or the `{"error": ...}` dict produced by the top-level handler. -/
inductive CycleResult where
  | ok (s : CycleSummary)
  | error
deriving DecidableEq, Repr

def CycleResult.isOk : CycleResult → Bool
  | .ok _ => true
  | .error => false

def CycleResult.insightList : CycleResult → List Insight
  | .ok s => s.insights
  | .error => []

structure CycleOutcome where
  result : CycleResult
  state : ModuleState
  db : DB

def runLearningCycle (st : ModuleState) (db : DB) (now : String) :
    CycleOutcome :=
  let ar := analysisResults db
  let insights := generateInsights ar
  let db1 := updateStrategiesDB insights db
  match st.learning_patterns with
  | .nonDict =>
    -- building the update dict evaluates
    -- self.learning_patterns.get("cycle_count", 0): on a non-dict this
    -- raises AttributeError, caught by the top-level handler after the
    -- strategy write has already been committed
    ⟨.error, st, db1⟩
  | .dict lp =>
    let lp1 : LearningPatterns :=
      { lp with
        last_analysis := some now
        analysis_results := some ar
        generated_insights := insights
        cycle_count := lp.cycle_count + 1 }
    let db2 := savePatterns lp1 db1
    ⟨.ok
      { cycle_completed_at := now
        insights_generated := insights.length
        analysis_results := ar
        insights := insights
        improvements_implemented :=
          (insights.filter (fun i => i.priority == "high")).length }
    , ⟨.dict lp1⟩, db2⟩

/-- The cycle count recorded in the persisted learning-patterns
document, when that document is an object. -/
def storedCycleCount (db : DB) : Option Nat :=
  match db.learning_patterns_stored with
  | some (.dict lp) => some lp.cycle_count
  | _ => none

/-!
## `LearningModule.apply_learned_optimizations`
-/

structure Optimizations where
  recommended_keywords : List String
  optimal_length : Option (List Int)
  best_posting_time : Option (List Nat)
  content_style : String
deriving DecidableEq, Repr

/-- `self.learning_patterns.get("analysis_results", {})
.get("content_performance", {})` with absent keys read as empty. -/
def contentPerformanceOf (lp : LearningPatterns) : ContentAnalysis :=
  match lp.analysis_results with
  | some ar => ar.content_performance
  | none => ContentAnalysis.empty

def timingPatternsOf (lp : LearningPatterns) : TimingAnalysis :=
  match lp.analysis_results with
  | some ar => ar.timing_patterns
  | none => TimingAnalysis.empty

/-- `apply_learned_optimizations` over the in-memory learning patterns
(`content_type` is accepted and unused, as in the source). -/
def applyLearnedOptimizations (lp : LearningPatterns)
    (content_type platform : String) : Optimizations :=
  let cp := contentPerformanceOf lp
  let tp := timingPatternsOf lp
  { recommended_keywords :=
      if cp.high_performing_keywords ≠ [] then
        cp.high_performing_keywords.take 5
      else []
    optimal_length :=
      match lookupKey cp.optimal_content_length platform with
      | some length_data =>
        some (length_data.recommended_range.getD [100, 200])
      | none => none
    best_posting_time := lookupKey tp.optimal_hours platform
    content_style :=
      match lookupKey cp.best_content_types platform with
      | some l => if l ≠ [] then (l.headD ("general", 0)).1 else "general"
      | none => "general" }

/-!
## Theorems for the learning cycle and optimizations
-/

/-- A store whose logs are empty, whose learning_patterns document holds
a JSON array (a value `json.loads` accepts and `_load_existing_patterns`
installs), and with no strategy_updates document yet. -/
def emptyLogsDB : DB :=
  { interactions := fun _ => []
    sales_interactions := []
    customer_interactions_len := fun _ => 0
    learning_patterns_stored := some .nonDict
    strategy_updates_stored := none }

/-- C2 (counterexample): with the learning-patterns document loaded as a
JSON array, `run_learning_cycle` raises at the `.get("cycle_count", 0)`
/ `.update(...)` step and returns the error dict — but the
strategy_updates document has already been written by the completed
`_update_strategies` sub-step, so the failed invocation did perform a
persisted write. -/
theorem run_learning_cycle_failure_writes_strategy :
    (runLearningCycle (loadExistingPatterns emptyLogsDB) emptyLogsDB
        "2026-01-01T00:00:00").result = .error ∧
    emptyLogsDB.strategy_updates_stored = none ∧
    (runLearningCycle (loadExistingPatterns emptyLogsDB) emptyLogsDB
        "2026-01-01T00:00:00").db.strategy_updates_stored =
      some StrategyUpdates.empty := by
  refine ⟨rfl, rfl, ?_⟩
  rfl

/-- C2 (amended): when an exception escapes the cycle (the in-memory
learning patterns are not a dict), the call returns the error dict, the
in-memory state and the learning_patterns document and the logs are
unchanged — but the strategy_updates document has already been rewritten
with the document derived from this invocation's insights. -/
theorem run_learning_cycle_error_partial_writes (st : ModuleState)
    (db : DB) (now : String) (h : st.learning_patterns = .nonDict) :
    (runLearningCycle st db now).result = .error ∧
    (runLearningCycle st db now).state = st ∧
    (runLearningCycle st db now).db.learning_patterns_stored =
      db.learning_patterns_stored ∧
    (runLearningCycle st db now).db.interactions = db.interactions ∧
    (runLearningCycle st db now).db.sales_interactions =
      db.sales_interactions ∧
    (runLearningCycle st db now).db.strategy_updates_stored =
      some (strategyDoc (generateInsights (analysisResults db))) := by
  simp [runLearningCycle, h, updateStrategiesDB]

/-- Witness for `run_learning_cycle_error_partial_writes` at the
concrete failing store. -/
theorem run_learning_cycle_error_partial_writes_witness :
    (runLearningCycle ⟨.nonDict⟩ emptyLogsDB "t").result = .error ∧
    (runLearningCycle ⟨.nonDict⟩ emptyLogsDB "t").db.learning_patterns_stored
      = emptyLogsDB.learning_patterns_stored ∧
    (runLearningCycle ⟨.nonDict⟩ emptyLogsDB "t").db.strategy_updates_stored
      = some (strategyDoc (generateInsights (analysisResults emptyLogsDB))) :=
  ⟨(run_learning_cycle_error_partial_writes ⟨.nonDict⟩ emptyLogsDB "t" rfl).1,
   (run_learning_cycle_error_partial_writes ⟨.nonDict⟩ emptyLogsDB "t"
      rfl).2.2.1,
   (run_learning_cycle_error_partial_writes ⟨.nonDict⟩ emptyLogsDB "t"
      rfl).2.2.2.2.2⟩

/-- C7: with unchanged log-store contents, two successive successful
cycles generate identical insight lists (the analyses and insight
generator are deterministic in the store contents, which the cycle's own
writes do not touch), while the persisted cycle_count increments by
exactly 1 on each call. -/
theorem learning_cycle_deterministic_insights (lp : LearningPatterns)
    (db : DB) (t1 t2 : String) :
    ((runLearningCycle ⟨.dict lp⟩ db t1).result).isOk = true ∧
    ((runLearningCycle (runLearningCycle ⟨.dict lp⟩ db t1).state
        (runLearningCycle ⟨.dict lp⟩ db t1).db t2).result).isOk = true ∧
    ((runLearningCycle ⟨.dict lp⟩ db t1).result).insightList =
      ((runLearningCycle (runLearningCycle ⟨.dict lp⟩ db t1).state
        (runLearningCycle ⟨.dict lp⟩ db t1).db t2).result).insightList ∧
    storedCycleCount (runLearningCycle ⟨.dict lp⟩ db t1).db =
      some (lp.cycle_count + 1) ∧
    storedCycleCount (runLearningCycle (runLearningCycle ⟨.dict lp⟩ db
        t1).state (runLearningCycle ⟨.dict lp⟩ db t1).db t2).db =
      some (lp.cycle_count + 2) := by
  refine ⟨rfl, rfl, ?_, rfl, rfl⟩
  rfl

/-- C8 (counterexample): with no learned data at all (so every platform
is absent from optimal_content_length), apply_learned_optimizations
returns optimal_length None — not the claimed [100, 200] default. -/
theorem absent_platform_optimal_length_none :
    (applyLearnedOptimizations initialLearningPatterns "post"
        "twitter").optimal_length = none ∧
    (applyLearnedOptimizations initialLearningPatterns "post"
        "twitter").optimal_length ≠ some [100, 200] := by
  exact ⟨rfl, by decide⟩

/-- C8 (amended): when the platform is absent from the learned
optimal_content_length map, optimal_length stays None (its initial
value); the [100, 200] default applies only when the platform is present
but its entry lacks a recommended_range. -/
theorem optimal_length_fallback_amended (lp : LearningPatterns)
    (content_type platform : String) :
    (lookupKey (contentPerformanceOf lp).optimal_content_length platform =
        none →
      (applyLearnedOptimizations lp content_type platform).optimal_length =
        none) ∧
    (∀ length_data : LengthStats,
      lookupKey (contentPerformanceOf lp).optimal_content_length platform =
          some length_data →
      length_data.recommended_range = none →
      (applyLearnedOptimizations lp content_type platform).optimal_length =
        some [100, 200]) := by
  constructor
  · intro h
    simp [applyLearnedOptimizations, h]
  · intro length_data h hr
    simp [applyLearnedOptimizations, h, hr]

/-- A length entry carrying no recommended_range key. -/
def bareLengthStats : LengthStats :=
  { average := 0, median := 0, recommended_range := none }

/-- Analysis results whose only content is a twitter length entry with
no recommended_range. -/
def bareAnalysisResults : AnalysisResults :=
  { content_performance :=
      { ContentAnalysis.empty with
          optimal_content_length := [("twitter", bareLengthStats)] }
    timing_patterns := TimingAnalysis.empty
    sales_patterns :=
      { conversion_triggers := []
        customer_journey_patterns := none
        effective_sales_messages := []
        objection_handling_success := [] } }

/-- Learned patterns whose twitter length entry lacks a
recommended_range key. -/
def lpWithBareLength : LearningPatterns :=
  { initialLearningPatterns with
      analysis_results := some bareAnalysisResults }

/-- Witness for `optimal_length_fallback_amended`: absent platform gives
None; present platform without recommended_range gives [100, 200]. -/
theorem optimal_length_fallback_amended_witness :
    (applyLearnedOptimizations initialLearningPatterns "post"
        "twitter").optimal_length = none ∧
    (applyLearnedOptimizations lpWithBareLength "post"
        "twitter").optimal_length = some [100, 200] :=
  ⟨(optimal_length_fallback_amended initialLearningPatterns "post"
      "twitter").1 rfl,
   (optimal_length_fallback_amended lpWithBareLength "post" "twitter").2
     bareLengthStats (by decide) rfl⟩
